import Mathlib

/-!
Shallow embedding of bugwarrior's GitHub service
(src/bugwarrior/services/github.py): the paginating HTTP client with its
Link-header parser, repository resolution, the repo/issue filters, the
three-strategy issue aggregation, configuration validation, and the
record normalizer, together with theorems settling the specification
claims about them.

Python dictionaries are modelled as association lists built exclusively
through an insert that overwrites an existing key (Python assignment
semantics, insertion order preserved); raising Python exceptions is
modelled with Except over an explicit error type; string splitting is
given by structurally recursive functions mirroring Python str.split.
-/

set_option maxHeartbeats 1000000

namespace BW

/-- JSON-like values: the payload universe handled by the GitHub client. -/
inductive JVal where
  | null
  | bool (b : Bool)
  | num (n : Int)
  | str (s : String)
  | arr (xs : List JVal)
  | obj (fields : List (String × JVal))

/-- A raw issue (or repo) payload: the field list of a JSON object. -/
abbrev Payload := List (String × JVal)

/-- Structural equality of JSON values, the model of Python == on the
payloads handled here. -/
def JVal.beq (a : JVal) (b : JVal) : Bool :=
  match a, b with
  | JVal.null, JVal.null => true
  | JVal.bool x, JVal.bool y => x == y
  | JVal.num x, JVal.num y => x == y
  | JVal.str x, JVal.str y => x == y
  | JVal.arr xs, JVal.arr ys => goList xs ys
  | JVal.obj fs, JVal.obj gs => goObj fs gs
  | _, _ => false
where
  goList : List JVal → List JVal → Bool
    | [], [] => true
    | x :: xs, y :: ys => JVal.beq x y && goList xs ys
    | _, _ => false
  goObj : List (String × JVal) → List (String × JVal) → Bool
    | [], [] => true
    | (k1, v1) :: fs, (k2, v2) :: gs => k1 == k2 && JVal.beq v1 v2 && goObj fs gs
    | _, _ => false

instance : BEq JVal := ⟨JVal.beq⟩

/-- Python exceptions raised by the modelled code.  The "no repository
url" ValueError carries the offending payload, as the source builds its
message from str(issue). -/
inductive PyErr where
  | keyError (key : String)
  | typeError
  | attributeError
  | indexError
  | valueErrorNoRepoUrl (issue : Payload)
  | valueErrorBadUrl (url : String)
  | transport (msg : String)

/-- Which modelled exceptions are Python ValueError (the only class
caught by GithubService.get_query's try/except). -/
def PyErr.isValueError : PyErr → Bool
  | PyErr.valueErrorNoRepoUrl _ => true
  | PyErr.valueErrorBadUrl _ => true
  | _ => false

/-- Association-list lookup (Python d[k] / `k in d` support). -/
def alookup {κ α : Type} [BEq κ] : List (κ × α) → κ → Option α
  | [], _ => none
  | (k2, v) :: rest, k => if k2 == k then some v else alookup rest k

/-- Python `k in d`. -/
def containsKey {κ α : Type} [BEq κ] (d : List (κ × α)) (k : κ) : Bool :=
  (alookup d k).isSome

/-- Python `d[k] = v`: overwrite the entry if the key is present, else
append it (insertion-ordered dict semantics). -/
def ainsert {κ α : Type} [BEq κ] (d : List (κ × α)) (k : κ) (v : α) :
    List (κ × α) :=
  if d.any (fun p => p.1 == k) then
    d.map (fun p => if p.1 == k then (p.1, v) else p)
  else d ++ [(k, v)]

/-- Python `d.update(pairs)`: insert every pair in order. -/
def aupdate {κ α : Type} [BEq κ] (d : List (κ × α))
    (pairs : List (κ × α)) : List (κ × α) :=
  pairs.foldl (fun acc p => ainsert acc p.1 p.2) d

/-- Python dict access raising KeyError when absent. -/
def dget (d : Payload) (k : String) : Except PyErr JVal :=
  match alookup d k with
  | some v => Except.ok v
  | none => Except.error (PyErr.keyError k)

/-- Python subscript v[k] on a JSON value: only objects support string
keys; anything else raises TypeError. -/
def jget (v : JVal) (k : String) : Except PyErr JVal :=
  match v with
  | JVal.obj fs => dget fs k
  | _ => Except.error PyErr.typeError

/-- Python truthiness of a JSON value. -/
def pyTruthy : JVal → Bool
  | JVal.null => false
  | JVal.bool b => b
  | JVal.num n => !(n == 0)
  | JVal.str s => !(s == "")
  | JVal.arr xs => !xs.isEmpty
  | JVal.obj fs => !fs.isEmpty

/-! ## Python string splitting

Core String.splitOn is defined by well-founded recursion and does not
evaluate inside the kernel, so Python str.split is modelled by
structurally recursive functions on the character list (for the
separators the source uses: "/", "; ", ", ", and the "\r\n" replace). -/

/-- Python s.split(sep) for a one-character separator, on char lists. -/
def splitChar1 (sep : Char) : List Char → List (List Char)
  | [] => [[]]
  | c :: rest =>
    match splitChar1 sep rest with
    | g :: gs => if c = sep then [] :: g :: gs else (c :: g) :: gs
    | [] => [[c]]

/-- Python s.split(sep) for a two-character separator, on char lists
(non-overlapping, left to right, as Python splits). -/
def splitChar2 (a b : Char) : List Char → List (List Char)
  | [] => [[]]
  | [c] => [[c]]
  | c1 :: c2 :: rest =>
    if c1 = a ∧ c2 = b then
      match splitChar2 a b rest with
      | g :: gs => [] :: g :: gs
      | [] => [[], []]
    else
      match splitChar2 a b (c2 :: rest) with
      | g :: gs => (c1 :: g) :: gs
      | [] => [[c1]]

/-- Python s.split(c) on strings. -/
def pySplit1 (s : String) (c : Char) : List String :=
  (splitChar1 c s.data).map String.mk

/-- Python s.split(ab) on strings, two-character separator. -/
def pySplit2 (s : String) (a b : Char) : List String :=
  (splitChar2 a b s.data).map String.mk

/-- Python s.replace('\r\n', '\n') on char lists. -/
def replaceCRLFList : List Char → List Char
  | [] => []
  | [c] => [c]
  | c1 :: c2 :: rest =>
    if c1 = '\x0d' ∧ c2 = '\n' then '\n' :: replaceCRLFList rest
    else c1 :: replaceCRLFList (c2 :: rest)

/-- Python s.replace('\r\n', '\n'). -/
def pyReplaceCRLF (s : String) : String :=
  String.mk (replaceCRLFList s.data)

/-! ## GithubClient: Link-header parsing and the pagination loop -/

/-- One `<url>; rel="name"` segment of a Link header:
part.split('; ')[1][5:-1] names the relation and part.split('; ')[0][1:-1]
is the URL (Python slices never raise; the [1] index raises IndexError
when the separator is absent). -/
def parseLinkPart (part : String) : Except PyErr (String × String) :=
  match pySplit2 part ';' ' ' with
  | a :: b :: _ => Except.ok ((b.drop 5).dropRight 1, (a.drop 1).dropRight 1)
  | _ => Except.error PyErr.indexError

/-- GithubClient._link_field_to_dict: an absent or empty header is an
empty map; otherwise split on ", " and turn the parsed pairs into a
dict (later duplicates of a relation overwrite earlier ones). -/
def link_field_to_dict (field : Option String) : Except PyErr (List (String × String)) :=
  match field with
  | none => Except.ok []
  | some s =>
    if s = "" then Except.ok []
    else
      match (pySplit2 s ',' ' ').mapM parseLinkPart with
      | Except.error e => Except.error e
      | Except.ok pairs => Except.ok (aupdate [] pairs)

/-- Python `'next' in link`. -/
def hasRel (m : List (String × String)) (r : String) : Bool :=
  m.any (fun p => p.1 == r)

/-- One HTTP response as the pagination loop observes it: the decoded
JSON body and the raw Link header (response.headers.get('link', None)). -/
structure PageResponse where
  body : JVal
  linkHeader : Option String

/-- The per-page body processing of GithubClient._getter: descend into
the requested sub-key when one is given, and require the result to be a
JSON array (the endpoints modelled all return arrays; `results +=` on a
non-sequence raises). -/
def pageItems (subkey : Option String) (body : JVal) : Except PyErr (List JVal) :=
  match (match subkey with
         | none => Except.ok body
         | some k => jget body k) with
  | Except.error e => Except.error e
  | Except.ok selected =>
    match selected with
    | JVal.arr xs => Except.ok xs
    | _ => Except.error PyErr.typeError

/-- The `while 'next' in link` loop of GithubClient._getter.  The server
is modelled as the sequence of responses it returns, consumed one per
request; acc is the accumulated results and n the number of requests
already issued.  Wanting a further page the server never answers is a
transport failure (a request with no modelled response). -/
def getterLoop (subkey : Option String) (acc : List JVal) (n : Nat) :
    List PageResponse → Except PyErr (List JVal × Nat)
  | [] => Except.error (PyErr.transport "no response")
  | r :: rest =>
    match pageItems subkey r.body with
    | Except.error e => Except.error e
    | Except.ok items =>
      match link_field_to_dict r.linkHeader with
      | Except.error e => Except.error e
      | Except.ok links =>
        if hasRel links "next" then getterLoop subkey (acc ++ items) (n + 1) rest
        else Except.ok (acc ++ items, n + 1)

/-- GithubClient._getter: start from the initial URL (link = {next: url}),
returning the accumulated items together with the number of requests
issued. -/
def getter (subkey : Option String) (responses : List PageResponse) :
    Except PyErr (List JVal × Nat) :=
  getterLoop subkey [] 0 responses

/-! ## Authentication -/

/-- The runtime auth dict built by GithubService.__init__: it may hold a
'token' entry or a 'basic' entry. -/
structure Auth where
  token : Option String
  basic : Option (String × String)
deriving DecidableEq

/-- GithubClient.__init__: a persistent Authorization header is set
exactly when the auth dict carries a token. -/
def client_auth_header (auth : Auth) : Option String :=
  match auth.token with
  | some t => some ("token " ++ t)
  | none => none

/-- The kwargs of every session.get issued by GithubClient._getter:
basic-auth credentials are attached exactly when the auth dict carries a
'basic' entry. -/
def getter_request_auth (auth : Auth) : Option (String × String) :=
  match auth.basic with
  | some c => some c
  | none => none

/-- The credential-related configuration consumed by
GithubService.__init__. -/
structure ServiceCreds where
  login : String
  hasToken : Bool
  tokenValue : String
  hasPassword : Bool
  passwordValue : String

/-- GithubService.__init__ lines 243-252: when a token is configured the
auth dict gets only the token entry; only otherwise does it get the
(login, password) basic entry. -/
def service_build_auth (c : ServiceCreds) : Auth :=
  if c.hasToken then { token := some c.tokenValue, basic := none }
  else { token := none, basic := some (c.login, c.passwordValue) }

/-! ## GithubIssue: the record normalizer -/

/-- The ASCII-alphanumeric class [a-zA-Z0-9] of the label regex. -/
def pyAlnum (c : Char) : Bool :=
  (decide ('a' ≤ c) && decide (c ≤ 'z')) ||
  (decide ('A' ≤ c) && decide (c ≤ 'Z')) ||
  (decide ('0' ≤ c) && decide (c ≤ '9'))

/-- GithubIssue._normalize_label_to_tag:
re.sub('[^a-zA-Z0-9]', '_', label) replaces each single character
outside the class by one underscore. -/
def normalize_label_to_tag (label : String) : String :=
  String.mk (label.data.map (fun c => if pyAlnum c then c else '_'))

/-- The per-issue context GithubService.issues computes and pushes into
the issue object (extra dict with keys project, type, annotations). -/
structure Extra where
  project : String
  type : String
  annotations : List String

/-- The origin/config data to_taskwarrior and get_tags read
(default_priority, import_labels_as_tags, label_template). -/
structure Origin where
  default_priority : String
  import_labels_as_tags : Bool
  label_template : String

/-- The normalized taskwarrior record returned by
GithubIssue.to_taskwarrior: the generic fields and the UDA fields. -/
structure TW where
  project : String
  priority : String
  annotations : List String
  tags : List String
  githuburl : JVal
  githubrepo : JVal
  githubtype : String
  githubuser : JVal
  githubtitle : JVal
  githubbody : JVal
  githubmilestone : JVal
  githubnumber : JVal
  githubcreatedon : JVal
  githubupdatedat : JVal

/-- The external date-parsing collaborator (self.parse_date); the claims
never inspect dates, so the parsed date is carried as the raw value. -/
def parse_date (v : JVal) : JVal := v

/-- GithubIssue.get_tags.  The Jinja2 template engine is an external
collaborator, abstracted as the render argument (template and context
in, string out).  The rendering context is the record with the
normalized label bound under 'label'; labels must be objects whose
'name' is a string (re.sub on a non-string raises). -/
def get_tags (render : String → Payload → String) (record : Payload)
    (origin : Origin) : Except PyErr (List String) :=
  if origin.import_labels_as_tags = false then Except.ok []
  else
    match (match alookup record "labels" with
           | some v => v
           | none => JVal.arr []) with
    | JVal.arr labels =>
      labels.mapM (fun labelDict =>
        match labelDict with
        | JVal.obj fs =>
          match dget fs "name" with
          | Except.error e => Except.error e
          | Except.ok (JVal.str name) =>
            Except.ok (render origin.label_template
              (ainsert record "label" (JVal.str (normalize_label_to_tag name))))
          | Except.ok _ => Except.error PyErr.typeError
        | _ => Except.error PyErr.typeError)
    | _ => Except.error PyErr.typeError

/-- The body step of to_taskwarrior: a truthy body must be a string and
has CRLF line endings normalized; a falsy body is kept as is. -/
def normalizeBody (body : JVal) : Except PyErr JVal :=
  if pyTruthy body then
    match body with
    | JVal.str s => Except.ok (JVal.str (pyReplaceCRLF s))
    | _ => Except.error PyErr.attributeError
  else Except.ok body

/-- GithubIssue.to_taskwarrior, with dictionary accesses performed in
the source's evaluation order: milestone (then its title when truthy),
body (then CRLF normalization when truthy), priority, the dict literal
in source order (project, priority, annotations, tags via get_tags,
then html_url, repo, type, user login, title, body, milestone, number,
created_at, updated_at). -/
def to_taskwarrior (render : String → Payload → String) (record : Payload)
    (extra : Extra) (origin : Origin) : Except PyErr TW :=
  match dget record "milestone" with
  | Except.error e => Except.error e
  | Except.ok milestone0 =>
  match (if pyTruthy milestone0 then jget milestone0 "title" else Except.ok milestone0) with
  | Except.error e => Except.error e
  | Except.ok milestone =>
  match dget record "body" with
  | Except.error e => Except.error e
  | Except.ok body0 =>
  match normalizeBody body0 with
  | Except.error e => Except.error e
  | Except.ok body =>
  match get_tags render record origin with
  | Except.error e => Except.error e
  | Except.ok tags =>
  match dget record "html_url" with
  | Except.error e => Except.error e
  | Except.ok htmlUrl =>
  match dget record "repo" with
  | Except.error e => Except.error e
  | Except.ok repoV =>
  match dget record "user" with
  | Except.error e => Except.error e
  | Except.ok userV =>
  match jget userV "login" with
  | Except.error e => Except.error e
  | Except.ok userLogin =>
  match dget record "title" with
  | Except.error e => Except.error e
  | Except.ok title =>
  match dget record "number" with
  | Except.error e => Except.error e
  | Except.ok number =>
  match dget record "created_at" with
  | Except.error e => Except.error e
  | Except.ok createdAt =>
  match dget record "updated_at" with
  | Except.error e => Except.error e
  | Except.ok updatedAt =>
  Except.ok {
    project := extra.project
    priority := if extra.type = "pull_request" then "H" else origin.default_priority
    annotations := extra.annotations
    tags := tags
    githuburl := htmlUrl
    githubrepo := repoV
    githubtype := extra.type
    githubuser := userLogin
    githubtitle := title
    githubbody := body
    githubmilestone := milestone
    githubnumber := number
    githubcreatedon := parse_date createdAt
    githubupdatedat := parse_date updatedAt
  }

/-! ## GithubService: resolution, filters, aggregation, validation -/

/-- The type derivation of GithubService.issues line 427:
'pull_request' if the payload carries a pull_request marker else
'issue'. -/
def deriveType (record : Payload) : String :=
  if containsKey record "pull_request" then "pull_request" else "issue"

/-- The regex step of get_repository_from_issue:
re.match('.*/([^/]*/[^/]*)$', url).  The greedy dot-star consumes
everything before the second-to-last '/', so the group is the last two
'/'-separated segments; a match needs at least two slashes; the
dot-star cannot cross a newline (re '.' excludes '\n'), while the two
group segments may contain one ([^/] admits '\n'). -/
def regexRepoTag (url : String) : Option String :=
  match (pySplit1 url '/').reverse with
  | b :: a :: rest =>
    if rest.isEmpty then none
    else if rest.any (fun s => s.data.contains '\n') then none
    else some (a ++ "/" ++ b)
  | _ => none

/-- GithubService.get_repository_from_issue: an explicit repo field is
returned verbatim; else the repos_url, else the repository_url is
matched; a payload with none of them raises the "no repository url"
ValueError carrying the payload; an unmatchable URL raises the
"Unrecognized URL" ValueError.  re.match on a non-string raises
TypeError. -/
def get_repository_from_issue (issue : Payload) : Except PyErr JVal :=
  if containsKey issue "repo" then dget issue "repo"
  else
    match (if containsKey issue "repos_url" then dget issue "repos_url"
           else if containsKey issue "repository_url" then dget issue "repository_url"
           else Except.error (PyErr.valueErrorNoRepoUrl issue)) with
    | Except.error e => Except.error e
    | Except.ok (JVal.str url) =>
      match regexRepoTag url with
      | some tag => Except.ok (JVal.str tag)
      | none => Except.error (PyErr.valueErrorBadUrl url)
    | Except.ok _ => Except.error PyErr.typeError

/-- Python `name in repos` for a list of configured repo names. -/
def jmemStr (v : JVal) (l : List String) : Bool :=
  l.any (fun s => v == JVal.str s)

/-- GithubService.filter_repo_name: reject a name on the exclude list;
else, when an include list is configured, accept exactly the names on
it; else accept. -/
def filter_repo_name (excludeRepos includeRepos : List String) (name : JVal) : Bool :=
  if !excludeRepos.isEmpty && jmemStr name excludeRepos then false
  else if !includeRepos.isEmpty then jmemStr name includeRepos
  else true

/-- GithubService.filter_repos: only repos whose owner login equals the
configured username are considered, then the repo-name filter applies
to the repo's name. -/
def filter_repos (username : String) (excludeRepos includeRepos : List String)
    (repo : Payload) : Except PyErr Bool :=
  match dget repo "owner" with
  | Except.error e => Except.error e
  | Except.ok ownerV =>
    match jget ownerV "login" with
    | Except.error e => Except.error e
    | Except.ok loginV =>
      if !(loginV == JVal.str username) then Except.ok false
      else
        match dget repo "name" with
        | Except.error e => Except.error e
        | Except.ok nameV => Except.ok (filter_repo_name excludeRepos includeRepos nameV)

/-- GithubService.filter_issues.  It is applied to the elements of
dict.items() of the directly-assigned issue set, so `repo, _ = issue`
unpacks the (key, value) pair and repo is the dictionary key: the
issue's url.  repo.split('/')[-3] then raises IndexError when that url
has fewer than three '/'-separated segments, and a non-string key has
no split attribute. -/
def filter_issues (excludeRepos includeRepos : List String)
    (item : JVal × (JVal × Payload)) : Except PyErr Bool :=
  match item.1 with
  | JVal.str repo =>
    match (pySplit1 repo '/').reverse with
    | _ :: _ :: c :: _ =>
      Except.ok (filter_repo_name excludeRepos includeRepos (JVal.str c))
    | _ => Except.error PyErr.indexError
  | _ => Except.error PyErr.attributeError

/-- The URL-keyed working set: canonical URL key to (repo tag, payload),
as built by the three fetch strategies and their merge. -/
abbrev Agg := List (JVal × (JVal × Payload))

/-- The (key, value) pairs inserted by GithubService.get_owned_repo_issues
for one repo tag: each fetched issue is keyed by its url field. -/
def svc_get_owned_pairs (tag : String) (fetched : List Payload) :
    Except PyErr (List (JVal × (JVal × Payload))) :=
  fetched.mapM (fun issue =>
    match dget issue "url" with
    | Except.error e => Except.error e
    | Except.ok u => Except.ok (u, (JVal.str tag, issue)))

/-- GithubService.get_owned_repo_issues: the dict built from those
pairs. -/
def svc_get_owned_repo_issues (tag : String) (fetched : List Payload) :
    Except PyErr Agg :=
  match svc_get_owned_pairs tag fetched with
  | Except.error e => Except.error e
  | Except.ok pairs => Except.ok (aupdate [] pairs)

/-- The (key, value) pairs inserted by GithubService.get_query: each
result is keyed by its html_url; a ValueError from repository
resolution is logged and the item dropped, any other exception
propagates. -/
def svc_get_query_pairs : List Payload → Except PyErr (List (JVal × (JVal × Payload)))
  | [] => Except.ok []
  | issue :: rest =>
    match dget issue "html_url" with
    | Except.error e => Except.error e
    | Except.ok url =>
      match get_repository_from_issue issue with
      | Except.error e =>
        if e.isValueError then svc_get_query_pairs rest
        else Except.error e
      | Except.ok repo =>
        match svc_get_query_pairs rest with
        | Except.error e => Except.error e
        | Except.ok tail => Except.ok ((url, (repo, issue)) :: tail)

/-- GithubService.get_query: the dict built from those pairs. -/
def svc_get_query (fetched : List Payload) : Except PyErr Agg :=
  match svc_get_query_pairs fetched with
  | Except.error e => Except.error e
  | Except.ok pairs => Except.ok (aupdate [] pairs)

/-- The (key, value) pairs inserted by
GithubService.get_directly_assigned_issues: repository resolution runs
first and its failure propagates (unlike the query strategy), then the
issue is keyed by its url field. -/
def svc_get_assigned_pairs : List Payload → Except PyErr (List (JVal × (JVal × Payload)))
  | [] => Except.ok []
  | issue :: rest =>
    match get_repository_from_issue issue with
    | Except.error e => Except.error e
    | Except.ok repos =>
      match dget issue "url" with
      | Except.error e => Except.error e
      | Except.ok u =>
        match svc_get_assigned_pairs rest with
        | Except.error e => Except.error e
        | Except.ok tail => Except.ok ((u, (repos, issue)) :: tail)

/-- GithubService.get_directly_assigned_issues: the dict built from
those pairs. -/
def svc_get_directly_assigned (fetched : List Payload) : Except PyErr Agg :=
  match svc_get_assigned_pairs fetched with
  | Except.error e => Except.error e
  | Except.ok pairs => Except.ok (aupdate [] pairs)

/-- The aggregation-relevant service configuration. -/
structure SvcConfig where
  username : String
  exclude_repos : List String
  include_repos : List String
  query : String
  include_user_repos : Bool
  include_user_issues : Bool

/-- Python filter(...) over a list with an exception-raising predicate
(the laziness of the builtin does not change the final value or the
raised exception, since every filter in issues() is fully consumed). -/
def exceptFilter {α : Type} (p : α → Except PyErr Bool) :
    List α → Except PyErr (List α)
  | [] => Except.ok []
  | x :: xs =>
    match p x with
    | Except.error e => Except.error e
    | Except.ok b =>
      match exceptFilter p xs with
      | Except.error e => Except.error e
      | Except.ok rest => Except.ok (if b then x :: rest else rest)

/-- The owned-repo loop of GithubService.issues lines 404-408: for each
repo that passed filter_repos, merge the dict of its issues keyed under
the tag username + "/" + repo name (the name must be a string for the
concatenation).  The per-repo fetch is the ownedFetched collaborator. -/
def ownedReposFold (cfg : SvcConfig) (ownedFetched : String → List Payload) :
    List Payload → Agg → Except PyErr Agg
  | [], acc => Except.ok acc
  | repo :: rest, acc =>
    match dget repo "name" with
    | Except.error e => Except.error e
    | Except.ok (JVal.str name) =>
      match svc_get_owned_repo_issues (cfg.username ++ "/" ++ name)
              (ownedFetched (cfg.username ++ "/" ++ name)) with
      | Except.error e => Except.error e
      | Except.ok d => ownedReposFold cfg ownedFetched rest (aupdate acc d)
    | Except.ok _ => Except.error PyErr.typeError

/-- GithubService.issues lines 395-397: the working set after the query
strategy (started from the empty dict and updated with the query dict
when a non-empty query is configured). -/
def aggregateQueryStage (cfg : SvcConfig) (queryFetched : List Payload) :
    Except PyErr Agg :=
  if cfg.query = "" then Except.ok []
  else match svc_get_query queryFetched with
       | Except.error e => Except.error e
       | Except.ok q => Except.ok (aupdate [] q)

/-- GithubService.issues lines 399-408: when include_user_repos, filter
the fetched repo list with filter_repos and merge each surviving repo's
owned-issue dict into the working set. -/
def aggregateOwnedStage (cfg : SvcConfig) (reposFetched : List Payload)
    (ownedFetched : String → List Payload) (i1 : Agg) : Except PyErr Agg :=
  if cfg.include_user_repos then
    match exceptFilter
            (filter_repos cfg.username cfg.exclude_repos cfg.include_repos)
            reposFetched with
    | Except.error e => Except.error e
    | Except.ok repos => ownedReposFold cfg ownedFetched repos i1
  else Except.ok i1

/-- GithubService.issues lines 409-413: when include_user_issues, update
the working set with the filter_issues-filtered items of the
directly-assigned dict. -/
def aggregateAssignedStage (cfg : SvcConfig) (assignedFetched : List Payload)
    (i2 : Agg) : Except PyErr Agg :=
  if cfg.include_user_issues then
    match svc_get_directly_assigned assignedFetched with
    | Except.error e => Except.error e
    | Except.ok d =>
      match exceptFilter (filter_issues cfg.exclude_repos cfg.include_repos) d with
      | Except.error e => Except.error e
      | Except.ok kept => Except.ok (aupdate i2 kept)
  else Except.ok i2

/-- The merge phase of GithubService.issues (lines 394-413): the three
strategy stages run in source order over the shared working set.  The
client fetches are the list arguments (raw payload lists as _getter
returns them); ownedFetched gives get_issues results per repo tag. -/
def issuesAggregate (cfg : SvcConfig) (queryFetched : List Payload)
    (reposFetched : List Payload) (ownedFetched : String → List Payload)
    (assignedFetched : List Payload) : Except PyErr Agg :=
  match aggregateQueryStage cfg queryFetched with
  | Except.error e => Except.error e
  | Except.ok i1 =>
    match aggregateOwnedStage cfg reposFetched ownedFetched i1 with
    | Except.error e => Except.error e
    | Except.ok i2 => aggregateAssignedStage cfg assignedFetched i2

/-- Which github options a configuration supplies
(config.has_option for github.login/token/password/username). -/
structure ConfigOpts where
  login : Bool
  token : Bool
  password : Bool
  username : Bool
deriving DecidableEq

/-- GithubService.validate_config, the github-specific checks (the
trailing super() call performs only the generic service validation of
unrelated options and is an external collaborator): die on a missing
login, die when neither token nor password is supplied, die on a
missing username.  The returned message is the fatal error, none means
the checks pass. -/
def validate_config (c : ConfigOpts) : Option String :=
  if c.login = false then some "has no github.login"
  else if c.token = false ∧ c.password = false then
    some "has no github.token or github.password"
  else if c.username = false then some "has no github.username"
  else none

/-! ## Dictionary key uniqueness -/

/-- No two entries of an association list share a key (pairwise over the
Python ==, the BEq of the key type). -/
def KeysDistinct {κ α : Type} [BEq κ] (d : List (κ × α)) : Prop :=
  d.Pairwise (fun p q => (p.1 == q.1) = false)

theorem keysDistinct_nil {κ α : Type} [BEq κ] : KeysDistinct ([] : List (κ × α)) :=
  List.Pairwise.nil

theorem ainsert_keysDistinct {κ α : Type} [BEq κ] {d : List (κ × α)}
    (hd : KeysDistinct d) (k : κ) (v : α) : KeysDistinct (ainsert d k v) := by
  unfold ainsert
  split
  · have hfst : ∀ p : κ × α,
        ((fun p : κ × α => if p.1 == k then (p.1, v) else p) p).1 = p.1 := by
      intro p; dsimp only; split <;> rfl
    unfold KeysDistinct
    rw [List.pairwise_map]
    refine hd.imp ?_
    intro a b hab
    rw [hfst a, hfst b]
    exact hab
  · next hany =>
    unfold KeysDistinct
    rw [List.pairwise_append]
    refine ⟨hd, List.pairwise_singleton _ _, ?_⟩
    intro a ha b hb
    have hb2 : b = (k, v) := by simpa using hb
    subst hb2
    by_contra hne
    exact hany (List.any_eq_true.mpr ⟨a, ha, by simpa using hne⟩)

theorem aupdate_keysDistinct {κ α : Type} [BEq κ] {d : List (κ × α)}
    (hd : KeysDistinct d) (pairs : List (κ × α)) : KeysDistinct (aupdate d pairs) := by
  induction pairs generalizing d with
  | nil => exact hd
  | cons p ps ih => exact ih (ainsert_keysDistinct hd p.1 p.2)

theorem ownedReposFold_keysDistinct (cfg : SvcConfig)
    (ownedFetched : String → List Payload) (repos : List Payload) :
    ∀ {acc out : Agg}, KeysDistinct acc →
      ownedReposFold cfg ownedFetched repos acc = Except.ok out → KeysDistinct out := by
  induction repos with
  | nil =>
    intro acc out hacc h
    cases h
    exact hacc
  | cons repo rest ih =>
    intro acc out hacc h
    unfold ownedReposFold at h
    split at h
    · cases h
    · split at h
      · cases h
      · exact ih (aupdate_keysDistinct hacc _) h
    · cases h

theorem aggregateQueryStage_keysDistinct {cfg : SvcConfig} {qf : List Payload}
    {out : Agg} (h : aggregateQueryStage cfg qf = Except.ok out) :
    KeysDistinct out := by
  unfold aggregateQueryStage at h
  split at h
  · cases h
    exact keysDistinct_nil
  · split at h
    · cases h
    · cases h
      exact aupdate_keysDistinct keysDistinct_nil _

theorem aggregateOwnedStage_keysDistinct {cfg : SvcConfig} {rf : List Payload}
    {of : String → List Payload} {i1 out : Agg} (hi : KeysDistinct i1)
    (h : aggregateOwnedStage cfg rf of i1 = Except.ok out) : KeysDistinct out := by
  unfold aggregateOwnedStage at h
  split at h
  · split at h
    · cases h
    · exact ownedReposFold_keysDistinct cfg of _ hi h
  · cases h
    exact hi

theorem aggregateAssignedStage_keysDistinct {cfg : SvcConfig} {af : List Payload}
    {i2 out : Agg} (hi : KeysDistinct i2)
    (h : aggregateAssignedStage cfg af i2 = Except.ok out) : KeysDistinct out := by
  unfold aggregateAssignedStage at h
  split at h
  · split at h
    · cases h
    · split at h
      · cases h
      · cases h
        exact aupdate_keysDistinct hi _
  · cases h
    exact hi

/-! ## Claim C1 -/

/-- The number of working-set entries whose payload has the given
html_url. -/
def htmlUrlCount (agg : Agg) (u : JVal) : Nat :=
  (agg.filter (fun e =>
    match alookup e.2.2 "html_url" with
    | some v => v == u
    | none => false)).length

/-- A payload whose API url differs from its html_url, available to the
query strategy (via html_url plus repos_url) and to the owned-repo
strategy (via url). -/
def c1issue : Payload :=
  [("url", JVal.str "U"), ("html_url", JVal.str "H"),
   ("repos_url", JVal.str "x/alice/proj")]

/-- The owned repo payload for the C1 run. -/
def c1repo : Payload :=
  [("owner", JVal.obj [("login", JVal.str "alice")]), ("name", JVal.str "proj")]

/-- The C1 service configuration: query and owned-repo strategies on. -/
def c1cfg : SvcConfig :=
  { username := "alice", exclude_repos := [], include_repos := [],
    query := "q", include_user_repos := true, include_user_issues := false }

/-- C1 (counterexample): one payload with html_url "H" and url "U" is
returned by both the query strategy and the owned-repo strategy; the
query strategy keys it by html_url while the owned-repo strategy keys
it by url, so the merged Aggregate Issue Set holds two entries whose
payload has the canonical URL "H" — not exactly one. -/
theorem github_dedup_counterexample :
    issuesAggregate c1cfg [c1issue] [c1repo]
        (fun t => if t = "alice/proj" then [c1issue] else []) [] =
      Except.ok [(JVal.str "H", (JVal.str "alice/proj", c1issue)),
                 (JVal.str "U", (JVal.str "alice/proj", c1issue))] ∧
    htmlUrlCount [(JVal.str "H", (JVal.str "alice/proj", c1issue)),
                  (JVal.str "U", (JVal.str "alice/proj", c1issue))]
        (JVal.str "H") = 2 :=
  ⟨rfl, rfl⟩

/-- C1 (amended): merging is deduplicating per inserted key — every
successful run of the merge phase yields a working set whose keys are
pairwise distinct, so inserting the same key from two strategies leaves
exactly one entry; but the query strategy keys items by html_url while
the owned-repo and directly-assigned strategies key them by the url
field, so uniqueness of the canonical html_url across strategies holds
only when those two fields coincide. -/
theorem github_aggregate_keys_unique (cfg : SvcConfig) (qf rf : List Payload)
    (of : String → List Payload) (af : List Payload) (agg : Agg)
    (h : issuesAggregate cfg qf rf of af = Except.ok agg) :
    KeysDistinct agg := by
  unfold issuesAggregate at h
  split at h
  · cases h
  · next i1 heq1 =>
    split at h
    · cases h
    · next i2 heq2 =>
      exact aggregateAssignedStage_keysDistinct
        (aggregateOwnedStage_keysDistinct (aggregateQueryStage_keysDistinct heq1) heq2) h

/-- C1 witness: a concrete run (directly-assigned strategy only, the
same issue fetched twice) merges to a single entry with pairwise
distinct keys. -/
theorem github_aggregate_keys_unique_witness :
    KeysDistinct [(JVal.str "a/b/c", (JVal.str "a/b",
      [("url", JVal.str "a/b/c"), ("repository_url", JVal.str "x/a/b")]))] :=
  github_aggregate_keys_unique
    { username := "u", exclude_repos := [], include_repos := [],
      query := "", include_user_repos := false, include_user_issues := true }
    [] [] (fun _ => [])
    [[("url", JVal.str "a/b/c"), ("repository_url", JVal.str "x/a/b")],
     [("url", JVal.str "a/b/c"), ("repository_url", JVal.str "x/a/b")]]
    _ rfl

/-! ## Claim C2 -/

/-- Every successful normalization carries the priority computed from
the type alone: "H" for pull_request, the configured default
otherwise. -/
theorem to_taskwarrior_priority (render : String → Payload → String)
    (record : Payload) (extra : Extra) (origin : Origin) (tw : TW)
    (h : to_taskwarrior render record extra origin = Except.ok tw) :
    tw.priority = if extra.type = "pull_request" then "H" else origin.default_priority := by
  unfold to_taskwarrior at h
  repeat' split at h
  all_goals cases h
  all_goals simp [*]

/-- C2 (confirmed): with the type derived as the source derives it
(pull_request marker present or not), a successful normalization of a
pull request gets priority "H" (the taskwarrior encoding of high)
whatever the configured default, and an issue gets the configured
default. -/
theorem github_pull_request_priority (render : String → Payload → String)
    (record : Payload) (extra : Extra) (origin : Origin) (tw : TW)
    (h : to_taskwarrior render record extra origin = Except.ok tw)
    (hty : extra.type = deriveType record) :
    (containsKey record "pull_request" = true → tw.priority = "H") ∧
    (containsKey record "pull_request" = false →
      tw.priority = origin.default_priority) := by
  have hp := to_taskwarrior_priority render record extra origin tw h
  constructor
  · intro hc
    rw [hp, hty]
    simp [deriveType, hc]
  · intro hc
    rw [hp, hty]
    simp [deriveType, hc]

/-- The C2 pull-request payload. -/
def c2prRecord : Payload :=
  [("milestone", JVal.null), ("body", JVal.null),
   ("pull_request", JVal.obj [("url", JVal.str "p")]),
   ("html_url", JVal.str "h"), ("repo", JVal.str "a/b"),
   ("user", JVal.obj [("login", JVal.str "u")]), ("title", JVal.str "t"),
   ("number", JVal.num 1), ("created_at", JVal.str "c"),
   ("updated_at", JVal.str "d")]

/-- The C2 plain-issue payload. -/
def c2issueRecord : Payload :=
  [("milestone", JVal.null), ("body", JVal.null),
   ("html_url", JVal.str "h"), ("repo", JVal.str "a/b"),
   ("user", JVal.obj [("login", JVal.str "u")]), ("title", JVal.str "t"),
   ("number", JVal.num 1), ("created_at", JVal.str "c"),
   ("updated_at", JVal.str "d")]

/-- The C2 origin: a default priority other than "H". -/
def c2origin : Origin :=
  { default_priority := "M", import_labels_as_tags := false,
    label_template := "\x7b\x7blabel\x7d\x7d" }

/-- C2 witness: a concrete pull request normalizes to priority "H"
although the configured default is "M", and a concrete issue normalizes
to "M". -/
theorem github_pull_request_priority_witness :
    ({ project := "b",
       priority := "H", annotations := [], tags := [],
       githuburl := JVal.str "h", githubrepo := JVal.str "a/b",
       githubtype := "pull_request", githubuser := JVal.str "u",
       githubtitle := JVal.str "t", githubbody := JVal.null,
       githubmilestone := JVal.null, githubnumber := JVal.num 1,
       githubcreatedon := JVal.str "c", githubupdatedat := JVal.str "d" } : TW).priority
      = "H" ∧
    ({ project := "b",
       priority := "M", annotations := [], tags := [],
       githuburl := JVal.str "h", githubrepo := JVal.str "a/b",
       githubtype := "issue", githubuser := JVal.str "u",
       githubtitle := JVal.str "t", githubbody := JVal.null,
       githubmilestone := JVal.null, githubnumber := JVal.num 1,
       githubcreatedon := JVal.str "c", githubupdatedat := JVal.str "d" } : TW).priority
      = "M" :=
  ⟨(github_pull_request_priority (fun _ _ => "") c2prRecord
      { project := "b", type := "pull_request", annotations := [] } c2origin _ rfl rfl).1 rfl,
   (github_pull_request_priority (fun _ _ => "") c2issueRecord
      { project := "b", type := "issue", annotations := [] } c2origin _ rfl rfl).2 rfl⟩

/-! ## Claim C3 -/

/-- C3 (counterexample): the label "Bug: Critical!" has two consecutive
non-alphanumeric characters (colon and space), each replaced by its own
underscore, so it normalizes to "Bug__Critical_" and not to the claimed
"Bug_Critical_". -/
theorem github_label_example_counterexample :
    normalize_label_to_tag "Bug: Critical!" = "Bug__Critical_" ∧
    normalize_label_to_tag "Bug: Critical!" ≠ "Bug_Critical_" :=
  ⟨rfl, by decide⟩

/-- C3 (amended): label-to-tag normalization rewrites the label
character by character, keeping every [A-Za-z0-9] character and turning
every other character into one "_"; in particular "Bug: Critical!"
normalizes to "Bug__Critical_". -/
theorem github_label_normalization :
    (∀ label : String,
      List.Forall₂ (fun a b => b = if pyAlnum a then a else '_')
        label.data (normalize_label_to_tag label).data) ∧
    normalize_label_to_tag "Bug: Critical!" = "Bug__Critical_" := by
  refine ⟨?_, rfl⟩
  intro label
  show List.Forall₂ _ label.data (label.data.map _)
  rw [List.forall₂_map_right_iff]
  exact List.forall₂_same.mpr (fun a _ => rfl)

/-! ## Claim C5 -/

/-- The missing-milestone payload: no milestone key at all (every other
required field present, no assignee either). -/
def c5record : Payload :=
  [("body", JVal.null), ("html_url", JVal.str "h"), ("repo", JVal.str "a/b"),
   ("user", JVal.obj [("login", JVal.str "u")]), ("title", JVal.str "t"),
   ("number", JVal.num 1), ("created_at", JVal.str "c"),
   ("updated_at", JVal.str "d")]

/-- C5 (counterexample): a payload in which the milestone field is
absent (rather than null) makes to_taskwarrior raise KeyError
'milestone' — normalization does not succeed for absent optional
fields. -/
theorem github_missing_milestone_counterexample :
    containsKey c5record "milestone" = false ∧
    to_taskwarrior (fun _ _ => "") c5record
        { project := "b", type := "issue", annotations := [] }
        { default_priority := "M", import_labels_as_tags := false,
          label_template := "\x7b\x7blabel\x7d\x7d" } =
      Except.error (PyErr.keyError "milestone") :=
  ⟨rfl, rfl⟩

/-- C5 (amended): when the optional milestone and body fields are
present with null values (and the assignee, which to_taskwarrior never
reads, is arbitrary — absent or null), normalization succeeds whenever
the mandatory fields are readable, and maps milestone and body to the
empty (null) value. -/
theorem github_null_optionals_normalize (render : String → Payload → String)
    (record : Payload) (extra : Extra) (origin : Origin) (tags : List String)
    (vUrl vRepo vLogin vTitle vNum vC vU : JVal) (userFields : Payload)
    (hm : alookup record "milestone" = some JVal.null)
    (hb : alookup record "body" = some JVal.null)
    (ht : get_tags render record origin = Except.ok tags)
    (hu : alookup record "html_url" = some vUrl)
    (hr : alookup record "repo" = some vRepo)
    (huser : alookup record "user" = some (JVal.obj userFields))
    (hlogin : alookup userFields "login" = some vLogin)
    (htitle : alookup record "title" = some vTitle)
    (hnum : alookup record "number" = some vNum)
    (hca : alookup record "created_at" = some vC)
    (hua : alookup record "updated_at" = some vU) :
    to_taskwarrior render record extra origin = Except.ok
      { project := extra.project
        priority := if extra.type = "pull_request" then "H" else origin.default_priority
        annotations := extra.annotations
        tags := tags
        githuburl := vUrl
        githubrepo := vRepo
        githubtype := extra.type
        githubuser := vLogin
        githubtitle := vTitle
        githubbody := JVal.null
        githubmilestone := JVal.null
        githubnumber := vNum
        githubcreatedon := parse_date vC
        githubupdatedat := parse_date vU } := by
  unfold to_taskwarrior
  simp only [dget, jget, hm, hb, ht, hu, hr, huser, hlogin, htitle, hnum, hca, hua,
    pyTruthy, normalizeBody]
  simp

/-- C5 witness: a concrete payload with null milestone, null body and no
assignee normalizes successfully, milestone and body empty. -/
theorem github_null_optionals_normalize_witness :
    to_taskwarrior (fun _ _ => "")
        (("milestone", JVal.null) :: c5record)
        { project := "b", type := "issue", annotations := [] }
        { default_priority := "M", import_labels_as_tags := false,
          label_template := "\x7b\x7blabel\x7d\x7d" } =
      Except.ok
        { project := "b", priority := "M", annotations := [], tags := [],
          githuburl := JVal.str "h", githubrepo := JVal.str "a/b",
          githubtype := "issue", githubuser := JVal.str "u",
          githubtitle := JVal.str "t", githubbody := JVal.null,
          githubmilestone := JVal.null, githubnumber := JVal.num 1,
          githubcreatedon := JVal.str "c", githubupdatedat := JVal.str "d" } :=
  github_null_optionals_normalize (fun _ _ => "") _ _ _ [] (JVal.str "h")
    (JVal.str "a/b") (JVal.str "u") (JVal.str "t") (JVal.num 1) (JVal.str "c")
    (JVal.str "d") [("login", JVal.str "u")]
    rfl rfl rfl rfl rfl rfl rfl rfl rfl rfl rfl

/-! ## Claim C4 -/

/-- A directly-assigned issue whose repository_url yields the regular
"owner/name" tag "a/b", but whose url field is the single segment
"u". -/
def c4issue : Payload :=
  [("url", JVal.str "u"), ("repository_url", JVal.str "x/a/b")]

/-- C4 (counterexample): the issue resolves to the well-formed repo tag
"a/b", the directly-assigned strategy keys it by its url "u", and
filter_issues — which splits the url key, not the tag — raises
IndexError on it instead of evaluating totally to the repo-name filter
of the tag's slug. -/
theorem github_filter_issues_counterexample :
    get_repository_from_issue c4issue = Except.ok (JVal.str "a/b") ∧
    svc_get_directly_assigned [c4issue] =
      Except.ok [(JVal.str "u", (JVal.str "a/b", c4issue))] ∧
    filter_issues [] [] (JVal.str "u", (JVal.str "a/b", c4issue)) =
      Except.error PyErr.indexError :=
  ⟨rfl, rfl, rfl⟩

/-- C4 (amended): filter_issues receives the (url key, value) items of
the directly-assigned dict and applies the repo-name filter to the
third-from-last '/'-segment of the url key — the repo slug for a
canonical ".../repos/owner/name/issues/N" API url — and raises
IndexError when that url has fewer than three segments. -/
theorem github_filter_issues_url_key (excludeRepos includeRepos : List String)
    (k : String) (v : JVal × Payload) :
    (∀ s1 s2 s3 rest, (pySplit1 k '/').reverse = s1 :: s2 :: s3 :: rest →
      filter_issues excludeRepos includeRepos (JVal.str k, v) =
        Except.ok (filter_repo_name excludeRepos includeRepos (JVal.str s3))) ∧
    ((pySplit1 k '/').length < 3 →
      filter_issues excludeRepos includeRepos (JVal.str k, v) =
        Except.error PyErr.indexError) := by
  have hshow : ∀ z : Except PyErr Bool,
      (filter_issues excludeRepos includeRepos (JVal.str k, v) = z) =
      ((match (pySplit1 k '/').reverse with
        | _ :: _ :: c :: _ =>
          Except.ok (filter_repo_name excludeRepos includeRepos (JVal.str c))
        | _ => Except.error PyErr.indexError) = z) := fun _ => rfl
  constructor
  · intro s1 s2 s3 rest hrev
    rw [hshow, hrev]
  · intro hlen
    have hlenrev : (pySplit1 k '/').reverse.length < 3 := by
      rw [List.length_reverse]; exact hlen
    rw [hshow]
    rcases hr : (pySplit1 k '/').reverse with _ | ⟨s1, _ | ⟨s2, _ | ⟨s3, rest⟩⟩⟩
    · rfl
    · rfl
    · rfl
    · rw [hr] at hlenrev; simp only [List.length_cons] at hlenrev; omega

/-- C4 witness: on a canonical GitHub API issue url the filter evaluates
to the repo-name filter of the repo slug. -/
theorem github_filter_issues_url_key_witness :
    filter_issues [] []
        (JVal.str "https://api.github.com/repos/octocat/Hello-World/issues/1347",
         (JVal.null, [])) =
      Except.ok (filter_repo_name [] [] (JVal.str "Hello-World")) :=
  (github_filter_issues_url_key [] []
      "https://api.github.com/repos/octocat/Hello-World/issues/1347"
      (JVal.null, [])).1
    "1347" "issues" "Hello-World" ["octocat", "repos", "api.github.com", "", "https:"] rfl

/-! ## Claim C6 -/

/-- C6 (counterexample): a configuration supplying login, username and
BOTH token and password (so not exactly one of them) passes
validate_config — the code only requires at least one credential, it
never rejects the pair. -/
theorem github_validate_both_creds_counterexample :
    validate_config { login := true, token := true, password := true, username := true }
      = none ∧
    Bool.xor true true = false :=
  ⟨rfl, rfl⟩

/-- C6 (amended): the github-specific validation fails exactly when
login is missing, or neither token nor password is supplied, or
username is missing; supplying both credentials passes (the token then
wins at client construction). -/
theorem github_validate_config_iff (c : ConfigOpts) :
    (validate_config c).isSome ↔
      (c.login = false ∨ (c.token = false ∧ c.password = false) ∨ c.username = false) := by
  rcases c with ⟨l, t, p, u⟩
  cases l <;> cases t <;> cases p <;> cases u <;> decide

/-! ## Claim C7 -/

/-- The per-page item lists of a response sequence (pageItems applied
pagewise, errors propagated). -/
def pagesItems (subkey : Option String) : List PageResponse → Except PyErr (List (List JVal))
  | [] => Except.ok []
  | r :: rest =>
    match pageItems subkey r.body with
    | Except.error e => Except.error e
    | Except.ok items =>
      match pagesItems subkey rest with
      | Except.error e => Except.error e
      | Except.ok tail => Except.ok (items :: tail)

theorem getterLoop_pages (subkey : Option String) (front : List PageResponse)
    (lastPage : PageResponse) :
    ∀ (itemss : List (List JVal)) (acc : List JVal) (n : Nat),
      pagesItems subkey (front ++ [lastPage]) = Except.ok itemss →
      (∀ r ∈ front, ∃ m, link_field_to_dict r.linkHeader = Except.ok m ∧
        hasRel m "next" = true) →
      (∃ m, link_field_to_dict lastPage.linkHeader = Except.ok m ∧
        hasRel m "next" = false) →
      getterLoop subkey acc n (front ++ [lastPage]) =
        Except.ok (acc ++ itemss.flatten, n + (front.length + 1)) := by
  induction front with
  | nil =>
    intro itemss acc n hitems _ hlast
    obtain ⟨m, hmap, hrel⟩ := hlast
    simp only [List.nil_append] at hitems ⊢
    unfold pagesItems at hitems
    unfold getterLoop
    cases hpi : pageItems subkey lastPage.body with
    | error e => rw [hpi] at hitems; cases hitems
    | ok xs =>
      rw [hpi] at hitems
      simp only [pagesItems] at hitems
      cases hitems
      rw [hmap]
      dsimp only
      rw [hrel]
      simp
  | cons r rs ih =>
    intro itemss acc n hitems hnext hlast
    obtain ⟨m, hmap, hrel⟩ := hnext r (List.mem_cons_self r rs)
    simp only [List.cons_append] at hitems ⊢
    unfold pagesItems at hitems
    unfold getterLoop
    cases hpi : pageItems subkey r.body with
    | error e => rw [hpi] at hitems; cases hitems
    | ok xs =>
      rw [hpi] at hitems
      cases hrest : pagesItems subkey (rs ++ [lastPage]) with
      | error e => rw [hrest] at hitems; cases hitems
      | ok tail =>
        rw [hrest] at hitems
        cases hitems
        rw [hmap]
        dsimp only
        rw [hrel]
        simp only [if_true]
        rw [ih tail (acc ++ xs) (n + 1) hrest
          (fun q hq => hnext q (List.mem_cons_of_mem r hq)) hlast]
        simp only [List.flatten_cons, List.append_assoc, List.length_cons]
        have harith : n + 1 + (rs.length + 1) = n + (rs.length + 1 + 1) := by omega
        rw [harith]

/-- C7 (confirmed): over a finite page sequence whose first N-1
responses advertise a "next" Link relation and whose last response does
not, _getter terminates with exactly N = front.length + 1 requests and
returns the pagewise concatenation of the items, in page order,
descending into the requested sub-key on every page when one is given
(the pagesItems hypothesis). -/
theorem github_getter_pagination (subkey : Option String)
    (front : List PageResponse) (lastPage : PageResponse)
    (itemss : List (List JVal))
    (hitems : pagesItems subkey (front ++ [lastPage]) = Except.ok itemss)
    (hnext : ∀ r ∈ front, ∃ m, link_field_to_dict r.linkHeader = Except.ok m ∧
      hasRel m "next" = true)
    (hlast : ∃ m, link_field_to_dict lastPage.linkHeader = Except.ok m ∧
      hasRel m "next" = false) :
    getter subkey (front ++ [lastPage]) =
      Except.ok (itemss.flatten, front.length + 1) := by
  have h := getterLoop_pages subkey front lastPage itemss [] 0 hitems hnext hlast
  simpa [getter] using h

/-- C7 witness: a concrete two-page search-style run with sub-key
"items": two requests, items concatenated in page order. -/
theorem github_getter_pagination_witness :
    getter (some "items")
        [{ body := JVal.obj [("items", JVal.arr [JVal.num 1])],
           linkHeader := some "<u2>; rel=\"next\"" },
         { body := JVal.obj [("items", JVal.arr [JVal.num 2, JVal.num 3])],
           linkHeader := none }] =
      Except.ok ([JVal.num 1, JVal.num 2, JVal.num 3], 2) :=
  github_getter_pagination (some "items")
    [{ body := JVal.obj [("items", JVal.arr [JVal.num 1])],
       linkHeader := some "<u2>; rel=\"next\"" }]
    { body := JVal.obj [("items", JVal.arr [JVal.num 2, JVal.num 3])],
      linkHeader := none }
    [[JVal.num 1], [JVal.num 2, JVal.num 3]] rfl
    (by
      intro r hr
      simp only [List.mem_singleton] at hr
      subst hr
      exact ⟨[("next", "u2")], rfl, rfl⟩)
    ⟨[], rfl, rfl⟩

/-! ## Claim C8 -/

/-- C8 (confirmed): repository resolution returns an explicit repo field
verbatim whatever else the payload holds; otherwise it extracts the
last two '/'-separated segments of the repos_url, else of the
repository_url (in that order, stated here for newline-free segment
shapes, where the regex matches exactly when the url has at least two
slashes); with none of the three fields it fails with the "no
repository url" error carrying the payload. -/
theorem github_repository_resolution (issue : Payload) :
    (∀ v, alookup issue "repo" = some v →
      get_repository_from_issue issue = Except.ok v) ∧
    (∀ u b a rest, alookup issue "repo" = none →
      alookup issue "repos_url" = some (JVal.str u) →
      (pySplit1 u '/').reverse = b :: a :: rest →
      rest ≠ [] →
      rest.any (fun s => s.data.contains '\n') = false →
      get_repository_from_issue issue = Except.ok (JVal.str (a ++ "/" ++ b))) ∧
    (∀ u b a rest, alookup issue "repo" = none →
      alookup issue "repos_url" = none →
      alookup issue "repository_url" = some (JVal.str u) →
      (pySplit1 u '/').reverse = b :: a :: rest →
      rest ≠ [] →
      rest.any (fun s => s.data.contains '\n') = false →
      get_repository_from_issue issue = Except.ok (JVal.str (a ++ "/" ++ b))) ∧
    (alookup issue "repo" = none → alookup issue "repos_url" = none →
      alookup issue "repository_url" = none →
      get_repository_from_issue issue = Except.error (PyErr.valueErrorNoRepoUrl issue)) := by
  refine ⟨?_, ?_, ?_, ?_⟩
  · intro v hv
    unfold get_repository_from_issue
    simp [containsKey, dget, hv]
  · intro u b a rest h0 h1 hrev hne hnl
    have hne2 : rest.isEmpty = false := by
      cases rest
      · exact absurd rfl hne
      · rfl
    have hreg : regexRepoTag u = some (a ++ "/" ++ b) := by
      unfold regexRepoTag
      rw [hrev]
      show (if rest.isEmpty = true then none
            else if (rest.any fun s => s.data.contains '\n') = true then none
            else some (a ++ "/" ++ b)) = some (a ++ "/" ++ b)
      simp only [hne2, hnl, Bool.false_eq_true, if_false]
    unfold get_repository_from_issue
    simp [containsKey, dget, h0, h1, hreg]
  · intro u b a rest h0 h1 h2 hrev hne hnl
    have hne2 : rest.isEmpty = false := by
      cases rest
      · exact absurd rfl hne
      · rfl
    have hreg : regexRepoTag u = some (a ++ "/" ++ b) := by
      unfold regexRepoTag
      rw [hrev]
      show (if rest.isEmpty = true then none
            else if (rest.any fun s => s.data.contains '\n') = true then none
            else some (a ++ "/" ++ b)) = some (a ++ "/" ++ b)
      simp only [hne2, hnl, Bool.false_eq_true, if_false]
    unfold get_repository_from_issue
    simp [containsKey, dget, h0, h1, h2, hreg]
  · intro h0 h1 h2
    unfold get_repository_from_issue
    simp [containsKey, dget, h0, h1, h2]

/-- C8 witness: a payload with only a repos_url resolves to the trailing
"owner/name"; one with an explicit repo field returns it verbatim; one
with no repository field errors with the payload attached. -/
theorem github_repository_resolution_witness :
    get_repository_from_issue [("repos_url", JVal.str "https://api.github.com/repos/a/b")] =
      Except.ok (JVal.str ("a" ++ "/" ++ "b")) ∧
    get_repository_from_issue [("repo", JVal.str "x/y"), ("repos_url", JVal.str "zzz")] =
      Except.ok (JVal.str "x/y") ∧
    get_repository_from_issue [("title", JVal.str "t")] =
      Except.error (PyErr.valueErrorNoRepoUrl [("title", JVal.str "t")]) :=
  ⟨(github_repository_resolution
      [("repos_url", JVal.str "https://api.github.com/repos/a/b")]).2.1
      "https://api.github.com/repos/a/b" "b" "a" ["repos", "api.github.com", "", "https:"]
      rfl rfl rfl (by decide) rfl,
   (github_repository_resolution
      [("repo", JVal.str "x/y"), ("repos_url", JVal.str "zzz")]).1 (JVal.str "x/y") rfl,
   (github_repository_resolution [("title", JVal.str "t")]).2.2.2 rfl rfl rfl⟩

/-! ## Claim C9 -/

/-- Python `name in configured-list` membership, at string type. -/
theorem jmemStr_str_iff (n : String) (l : List String) :
    jmemStr (JVal.str n) l = true ↔ n ∈ l := by
  unfold jmemStr
  rw [List.any_eq_true]
  constructor
  · rintro ⟨s, hs, hbeq⟩
    have h2 : (n == s) = true := hbeq
    rw [beq_iff_eq] at h2
    rwa [h2]
  · intro hn
    exact ⟨n, hn, by show (n == n) = true; simp⟩

/-- C9 (confirmed): the repo-name filter rejects every name on the
exclude list; otherwise, with a non-empty include list it accepts
exactly the names on it; otherwise it accepts everything. -/
theorem github_filter_repo_name_spec (excludeRepos includeRepos : List String)
    (name : String) :
    (name ∈ excludeRepos →
      filter_repo_name excludeRepos includeRepos (JVal.str name) = false) ∧
    (name ∉ excludeRepos → includeRepos ≠ [] →
      (filter_repo_name excludeRepos includeRepos (JVal.str name) = true ↔
        name ∈ includeRepos)) ∧
    (name ∉ excludeRepos → includeRepos = [] →
      filter_repo_name excludeRepos includeRepos (JVal.str name) = true) := by
  refine ⟨?_, ?_, ?_⟩
  · intro hmem
    have hne : excludeRepos.isEmpty = false := by
      cases excludeRepos
      · cases hmem
      · rfl
    have hj : jmemStr (JVal.str name) excludeRepos = true :=
      (jmemStr_str_iff _ _).mpr hmem
    unfold filter_repo_name
    rw [hne, hj]
    rfl
  · intro hnm hinc
    have hj : jmemStr (JVal.str name) excludeRepos = false := by
      cases hc : jmemStr (JVal.str name) excludeRepos
      · rfl
      · exact absurd ((jmemStr_str_iff _ _).mp hc) hnm
    have hne : includeRepos.isEmpty = false := by
      cases includeRepos
      · exact absurd rfl hinc
      · rfl
    unfold filter_repo_name
    rw [hj, hne]
    simpa using jmemStr_str_iff name includeRepos
  · intro hnm hinc
    have hj : jmemStr (JVal.str name) excludeRepos = false := by
      cases hc : jmemStr (JVal.str name) excludeRepos
      · rfl
      · exact absurd ((jmemStr_str_iff _ _).mp hc) hnm
    subst hinc
    unfold filter_repo_name
    simp [hj]

/-- C9 witness: the spec's three scenarios at concrete values —
exclude ["x"]: "x" rejected, "z" accepted; include ["y"]: "y" accepted,
"z" rejected; both empty: accepted. -/
theorem github_filter_repo_name_spec_witness :
    filter_repo_name ["x"] [] (JVal.str "x") = false ∧
    filter_repo_name ["x"] [] (JVal.str "z") = true ∧
    filter_repo_name [] ["y"] (JVal.str "y") = true ∧
    filter_repo_name [] ["y"] (JVal.str "z") = false ∧
    filter_repo_name [] [] (JVal.str "q") = true := by
  refine ⟨?_, ?_, ?_, ?_, ?_⟩
  · exact (github_filter_repo_name_spec ["x"] [] "x").1 (by decide)
  · exact (github_filter_repo_name_spec ["x"] [] "z").2.2 (by decide) rfl
  · exact ((github_filter_repo_name_spec [] ["y"] "y").2.1 (by decide)
      (by decide)).mpr (by decide)
  · have h := (github_filter_repo_name_spec [] ["y"] "z").2.1 (by decide) (by decide)
    exact Bool.eq_false_iff.mpr
      (fun hc => (by decide : ¬("z" ∈ (["y"] : List String))) (h.mp hc))
  · exact (github_filter_repo_name_spec [] [] "q").2.2 (by decide) rfl

/-! ## Claim C10 -/

/-- C10 (confirmed): with a token configured — even when a password is
configured too — the service builds a token-only auth dict: the
Authorization header is set from the token, the auth dict carries no
basic entry, and the per-request kwargs of the pagination loop attach
no basic-auth credentials. -/
theorem github_token_wins_auth (c : ServiceCreds) (htok : c.hasToken = true)
    (_hpw : c.hasPassword = true) :
    service_build_auth c = { token := some c.tokenValue, basic := none } ∧
    client_auth_header (service_build_auth c) = some ("token " ++ c.tokenValue) ∧
    getter_request_auth (service_build_auth c) = none := by
  unfold service_build_auth client_auth_header getter_request_auth
  rw [htok]
  exact ⟨rfl, rfl, rfl⟩

/-- C10 witness: a concrete configuration supplying both a token and a
password yields token-only authentication. -/
theorem github_token_wins_auth_witness :
    service_build_auth
        { login := "l", hasToken := true, tokenValue := "T",
          hasPassword := true, passwordValue := "P" } =
      { token := some "T", basic := none } ∧
    client_auth_header (service_build_auth
        { login := "l", hasToken := true, tokenValue := "T",
          hasPassword := true, passwordValue := "P" }) =
      some ("token " ++ "T") ∧
    getter_request_auth (service_build_auth
        { login := "l", hasToken := true, tokenValue := "T",
          hasPassword := true, passwordValue := "P" }) = none :=
  github_token_wins_auth
    { login := "l", hasToken := true, tokenValue := "T",
      hasPassword := true, passwordValue := "P" } rfl rfl

end BW
